import Mathlib

/-!
Verification of the asset-dashboard core (src/app.py) against its
specification.

The repository's only computational core lives in the Dash callback
`update_dashboard`: a year-by-year balance simulation
(`calculate_balance_with_skip_growth`), a bracket-expansion loop feeding a
bracketed root finder (`find_required_assets_with_skip_growth`), and the
year-by-year table construction of the callback body.  Python floats are
embedded as exact rationals (`ℚ`); the `round(x, 0)` calls that format each
numeric table cell for display are presentation formatting (spec section 6:
all conversions to display artifacts are the caller's responsibility) and are
not part of the embedded values, which model the loop's own local variables
`expenses`, `asset_growth`, `subtotal`, `ending_balance`, `balance`.
-/

/-- The immutable input record of the spec's data model (section 3).  The
core functions in src/app.py take the same data as positional arguments
`(n_years, E0, i, r, V)`; this record names them as the spec does. -/
structure EconomicParameters where
  horizonYears : ℕ
  annualExpenseBase : ℚ
  inflationRate : ℚ
  appreciationRate : ℚ
  assetUnitValue : ℚ
deriving DecidableEq

/-- The `for year in range(1, n_years + 1)` loop of
`calculate_balance_with_skip_growth` (src/app.py lines 121-127), as a fold:
`k` is the number of years still to simulate and `year` the 1-based index of
the next year.  Each step computes
`expenses = E0 * (1 + i)**(year - 1)`,
`asset_growth = 0` when `year == 1` and `balance * r` otherwise, and
`balance = balance + asset_growth - expenses`. -/
def balanceLoop (E0 i r : ℚ) : ℕ → ℚ → ℕ → ℚ
  | 0, balance, _ => balance
  | k + 1, balance, year =>
      let expenses := E0 * (1 + i) ^ (year - 1)
      let asset_growth := if year = 1 then 0 else balance * r
      balanceLoop E0 i r k (balance + asset_growth - expenses) (year + 1)

/-- src/app.py lines 118-128: starting from `initial_balance = A * V`, run the
year loop over years `1 .. n_years` and return the final balance. -/
def calculate_balance_with_skip_growth (A : ℚ) (n_years : ℕ) (E0 i r V : ℚ) : ℚ :=
  balanceLoop E0 i r n_years (A * V) 1

/-- The scalar objective closed over fixed parameters
(src/app.py lines 131-132). -/
def balance_to_zero (n_years : ℕ) (E0 i r V : ℚ) (A : ℚ) : ℚ :=
  calculate_balance_with_skip_growth A n_years E0 i r V

/-- The spec's objective function: `finalBalance(quantity, params)`
(spec sections 3 and 4.1). -/
def finalBalance (A : ℚ) (p : EconomicParameters) : ℚ :=
  calculate_balance_with_skip_growth A p.horizonYears p.annualExpenseBase
    p.inflationRate p.appreciationRate p.assetUnitValue

/-- Failure taxonomy of spec section 7.  `bracketNotFound` records the
endpoints the expansion loop held when it raised
`ValueError("Could not find a valid bracket containing the root.")`
(src/app.py line 142).  `invalidParameters` is the second failure of the
spec's taxonomy; it is part of this type so that statements about it can be
written, and no function of the embedded code ever produces it. -/
inductive SolveError where
  | bracketNotFound (lo hi : ℚ)
  | invalidParameters
deriving DecidableEq

instance instDecEqExceptTotal {ε α : Type} [DecidableEq ε] [DecidableEq α] :
    DecidableEq (Except ε α) := fun x y =>
  match x, y with
  | Except.ok a, Except.ok b =>
      if h : a = b then Decidable.isTrue (by rw [h])
      else Decidable.isFalse (fun hh => h (Except.ok.inj hh))
  | Except.error a, Except.error b =>
      if h : a = b then Decidable.isTrue (by rw [h])
      else Decidable.isFalse (fun hh => h (Except.error.inj hh))
  | Except.ok _, Except.error _ => Decidable.isFalse (fun hh => Except.noConfusion hh)
  | Except.error _, Except.ok _ => Decidable.isFalse (fun hh => Except.noConfusion hh)

/-- The bracket-expansion `while` loop of
`find_required_assets_with_skip_growth` (src/app.py lines 134-142):
while `fa * fb > 0`, set `a /= 2`, `b *= 2`, recompute `fa, fb`, and raise
if `abs(a) < 1e-8 or abs(b) > 1e8`; otherwise return the bracket `(a, b)`.
The Python loop has no iteration bound, so the embedding carries fuel and
returns `none` if the fuel runs out; `bracketLoop_isSome` below shows fuel 21
always suffices (the thresholds fire by the 20th halving/doubling), so the
`none` case is unreachable from the entry point. -/
def bracketLoop (f : ℚ → ℚ) : ℕ → ℚ → ℚ → Option (Except SolveError (ℚ × ℚ))
  | 0, _, _ => none
  | fuel + 1, a, b =>
      if f a * f b > 0 then
        let a' := a / 2
        let b' := b * 2
        if |a'| < 1 / 100000000 ∨ |b'| > 100000000 then
          some (Except.error (SolveError.bracketNotFound a' b'))
        else
          bracketLoop f fuel a' b'
      else
        some (Except.ok (a, b))

/-- Modelled from the spec: src/app.py line 144 calls
`scipy.optimize.root_scalar(balance_to_zero, bracket=[a, b], method='brentq')`,
library code that is not part of this repository.  Spec section 4.2 specifies
only that a bracketed root-finding method, invoked on a verified sign-changing
bracket, locates `A*` with `f(A*) ≈ 0` inside the bracket.  The objective is
affine in `A` (theorem `affine_closed_form` below):
`f(A) = c * A - d` with `c = V * (1+r)^(n-1)` and
`d = ∑ j < n, E0 * (1+i)^j * (1+r)^(n-1-j)`, so the point Brent's method
converges to is the exact affine root `d / c`; when `c = 0` the function is
constant and Brent's method can only have been handed a bracket on which the
constant is zero, in which case the low endpoint is already a root. -/
def brentqModel (n_years : ℕ) (E0 i r V : ℚ) (a _b : ℚ) : ℚ :=
  let c := V * (1 + r) ^ (n_years - 1)
  if c = 0 then a
  else (∑ j in Finset.range n_years, E0 * (1 + i) ^ j * (1 + r) ^ (n_years - 1 - j)) / c

/-- src/app.py lines 130-145: expand the bracket from `a, b = 0.01, 100`, and
once a sign-changing bracket is found hand exactly that bracket to the root
finder.  `none` (fuel exhaustion, which `solve_terminates` shows impossible)
is propagated so that nothing is hidden. -/
def find_required_assets_with_skip_growth (n_years : ℕ) (E0 i r V : ℚ) :
    Option (Except SolveError ℚ) :=
  match bracketLoop (balance_to_zero n_years E0 i r V) 21 (1 / 100) 100 with
  | none => none
  | some (Except.error e) => some (Except.error e)
  | some (Except.ok (a, b)) => some (Except.ok (brentqModel n_years E0 i r V a b))

/-- The spec's `solve(params)` (section 4.2), the callback's
`find_required_assets_with_skip_growth(years, E0, inflation_rate,
appreciation_rate, asset_value)` call at src/app.py line 148. -/
def solve (p : EconomicParameters) : Option (Except SolveError ℚ) :=
  find_required_assets_with_skip_growth p.horizonYears p.annualExpenseBase
    p.inflationRate p.appreciationRate p.assetUnitValue

/-- One YearRecord of the spec's SimulationTrace (section 3): the exact values
of the loop locals `balance`, `asset_growth`, `subtotal`, `expenses`,
`ending_balance` of the table loop (src/app.py lines 163-180), before the
`round(_, 0)` display formatting of the dict literal. -/
structure YearRecord where
  yearIndex : ℕ
  startingBalance : ℚ
  appreciation : ℚ
  subtotal : ℚ
  livingExpenses : ℚ
  endingBalance : ℚ
deriving DecidableEq

/-- The year-by-year trace produced by the table loop of `update_dashboard`
(src/app.py lines 163-180): same recurrence as `balanceLoop`, recording each
year's values.  `k` is the number of years still to produce, `year` the
1-based index of the next one. -/
def traceLoop (E0 i r : ℚ) : ℕ → ℚ → ℕ → List YearRecord
  | 0, _, _ => []
  | k + 1, balance, year =>
      let expenses := E0 * (1 + i) ^ (year - 1)
      let asset_growth := if year = 1 then 0 else balance * r
      let subtotal := balance + asset_growth
      let ending_balance := subtotal - expenses
      { yearIndex := year, startingBalance := balance, appreciation := asset_growth,
        subtotal := subtotal, livingExpenses := expenses,
        endingBalance := ending_balance } :: traceLoop E0 i r k ending_balance (year + 1)

/-- The spec's `simulate(quantity, params)` trace (section 4.1), realized by
the table loop of `update_dashboard` starting from `balance = A * asset_value`
(src/app.py line 158). -/
def simulate (A : ℚ) (p : EconomicParameters) : List YearRecord :=
  traceLoop p.annualExpenseBase p.inflationRate p.appreciationRate
    p.horizonYears (A * p.assetUnitValue) 1

/-- One row of the rendered dashboard table.  `none` stands for a
non-numeric cell: the `"Total"` marker in the Year column and the `"-"`
cells of the totals row (src/app.py lines 185-193).  Numeric cells hold the
exact values; the source formats them with `round(_, 0)` for display. -/
structure TableRow where
  year : Option ℤ
  startingBalance : Option ℚ
  appreciationValue : Option ℚ
  subtotal : Option ℚ
  livingExpenses : Option ℚ
  endingBalance : Option ℚ
deriving DecidableEq

/-- The table construction loop of `update_dashboard` (src/app.py lines
163-182): produces the per-year rows together with the running totals
`total_expenses` and `total_appreciation` accumulated from the unrounded
per-year `expenses` and `asset_growth`.  Returned as
(rows, total_expenses, total_appreciation). -/
def tableLoop (E0 i r : ℚ) (start_year : ℤ) : ℕ → ℚ → ℕ → List TableRow × ℚ × ℚ
  | 0, _, _ => ([], 0, 0)
  | k + 1, balance, year =>
      let expenses := E0 * (1 + i) ^ (year - 1)
      let asset_growth := if year = 1 then 0 else balance * r
      let subtotal := balance + asset_growth
      let ending_balance := subtotal - expenses
      let row : TableRow :=
        { year := some (start_year + year - 1), startingBalance := some balance,
          appreciationValue := some asset_growth, subtotal := some subtotal,
          livingExpenses := some expenses, endingBalance := some ending_balance }
      let rest := tableLoop E0 i r start_year k ending_balance (year + 1)
      (row :: rest.1, expenses + rest.2.1, asset_growth + rest.2.2)

/-- The synthetic totals row appended after the loop (src/app.py lines
185-193): Year is the `"Total"` marker, Starting Balance, Subtotal and Ending
Balance are `"-"`, and the two numeric cells are the accumulated totals. -/
def totalsRow (total_appreciation total_expenses : ℚ) : TableRow :=
  { year := none, startingBalance := none,
    appreciationValue := some total_appreciation, subtotal := none,
    livingExpenses := some total_expenses, endingBalance := none }

/-- The full `data` list handed to the DataTable (src/app.py lines 158-193):
per-year rows from `balance = A * asset_value`, then the totals row. -/
def update_dashboard_table (A : ℚ) (p : EconomicParameters) (start_year : ℤ) :
    List TableRow :=
  let t := tableLoop p.annualExpenseBase p.inflationRate p.appreciationRate
    start_year p.horizonYears (A * p.assetUnitValue) 1
  t.1 ++ [totalsRow t.2.2 t.2.1]

/-! ### Helper lemmas about the bracket-expansion loop -/

/-- One unfolding of the loop body, stated so the two `if`s can be resolved
with `if_pos` and `if_neg`. -/
lemma bracketLoop_succ_eq (f : ℚ → ℚ) (fuel : ℕ) (a b : ℚ) :
    bracketLoop f (fuel + 1) a b
      = if f a * f b > 0 then
          if |a / 2| < 1 / 100000000 ∨ |b * 2| > 100000000 then
            some (Except.error (SolveError.bracketNotFound (a / 2) (b * 2)))
          else
            bracketLoop f fuel (a / 2) (b * 2)
        else
          some (Except.ok (a, b)) := rfl

/-- Unfolding: the loop returns the current pair as soon as the sign test
`fa * fb > 0` fails. -/
lemma bracketLoop_found (f : ℚ → ℚ) (fuel : ℕ) (a b : ℚ)
    (h : ¬ f a * f b > 0) :
    bracketLoop f (fuel + 1) a b = some (Except.ok (a, b)) := by
  rw [bracketLoop_succ_eq, if_neg h]

/-- Unfolding: with the sign test still positive and both new endpoints away
from the thresholds, the loop recurses on the halved/doubled pair. -/
lemma bracketLoop_step_pos (f : ℚ → ℚ) (fuel : ℕ) (a b : ℚ)
    (h1 : f a * f b > 0)
    (h2 : ¬ (|a / 2| < 1 / 100000000 ∨ |b * 2| > 100000000)) :
    bracketLoop f (fuel + 1) a b = bracketLoop f fuel (a / 2) (b * 2) := by
  rw [bracketLoop_succ_eq, if_pos h1, if_neg h2]

/-- Unfolding: with the sign test still positive and a threshold hit by the
updated endpoints, the loop raises with exactly those endpoints. -/
lemma bracketLoop_raise (f : ℚ → ℚ) (fuel : ℕ) (a b : ℚ)
    (h1 : f a * f b > 0)
    (h2 : |a / 2| < 1 / 100000000 ∨ |b * 2| > 100000000) :
    bracketLoop f (fuel + 1) a b
      = some (Except.error (SolveError.bracketNotFound (a / 2) (b * 2))) := by
  rw [bracketLoop_succ_eq, if_pos h1, if_pos h2]

/-- A bracket the loop hands back always passed the sign test: the objective
values at its endpoints have product `≤ 0`. -/
lemma bracketLoop_ok_sign (f : ℚ → ℚ) :
    ∀ (fuel : ℕ) (a0 b0 a b : ℚ),
      bracketLoop f fuel a0 b0 = some (Except.ok (a, b)) → ¬ f a * f b > 0 := by
  intro fuel
  induction fuel with
  | zero => intro a0 b0 a b h; exact Option.noConfusion h
  | succ fuel ih =>
    intro a0 b0 a b h
    rw [bracketLoop_succ_eq] at h
    by_cases hsign : f a0 * f b0 > 0
    · rw [if_pos hsign] at h
      by_cases hth : |a0 / 2| < 1 / 100000000 ∨ |b0 * 2| > 100000000
      · rw [if_pos hth] at h
        exact absurd (Option.some.inj h) (fun hh => Except.noConfusion hh)
      · rw [if_neg hth] at h
        exact ih _ _ _ _ h
    · rw [if_neg hsign] at h
      obtain ⟨ha, hb⟩ := Prod.mk.inj (Except.ok.inj (Option.some.inj h))
      rw [← ha, ← hb]
      exact hsign

/-- An error the loop raises is always a `bracketNotFound` whose recorded
endpoints violate a threshold. -/
lemma bracketLoop_err_shape (f : ℚ → ℚ) :
    ∀ (fuel : ℕ) (a0 b0 : ℚ) (e : SolveError),
      bracketLoop f fuel a0 b0 = some (Except.error e) →
      ∃ a b, e = SolveError.bracketNotFound a b
        ∧ (|a| < 1 / 100000000 ∨ |b| > 100000000) := by
  intro fuel
  induction fuel with
  | zero => intro a0 b0 e h; exact Option.noConfusion h
  | succ fuel ih =>
    intro a0 b0 e h
    rw [bracketLoop_succ_eq] at h
    by_cases hsign : f a0 * f b0 > 0
    · rw [if_pos hsign] at h
      by_cases hth : |a0 / 2| < 1 / 100000000 ∨ |b0 * 2| > 100000000
      · rw [if_pos hth] at h
        exact ⟨a0 / 2, b0 * 2, (Except.error.inj (Option.some.inj h)).symm, hth⟩
      · rw [if_neg hth] at h
        exact ih _ _ _ h
    · rw [if_neg hsign] at h
      exact absurd (Option.some.inj h) (fun hh => Except.noConfusion hh)

/-- Fuel sufficiency: once the starting low endpoint is small enough relative
to the fuel, the loop cannot run out of fuel — the `1e-8` threshold fires
first.  This is the defensive-cap bound of spec section 5 made exact. -/
lemma bracketLoop_isSome (f : ℚ → ℚ) :
    ∀ (fuel : ℕ) (a b : ℚ), 0 < a → a < (1 / 100000000) * 2 ^ fuel →
      (bracketLoop f (fuel + 1) a b).isSome := by
  intro fuel
  induction fuel with
  | zero =>
    intro a b ha hsmall
    rw [pow_zero, mul_one] at hsmall
    by_cases hsign : f a * f b > 0
    · have hth : |a / 2| < 1 / 100000000 := by
        rw [abs_of_pos (by positivity)]
        linarith
      rw [bracketLoop_raise f 0 a b hsign (Or.inl hth)]
      rfl
    · rw [bracketLoop_found f 0 a b hsign]; rfl
  | succ fuel ih =>
    intro a b ha hsmall
    by_cases hsign : f a * f b > 0
    · by_cases hth : |a / 2| < 1 / 100000000 ∨ |b * 2| > 100000000
      · rw [bracketLoop_raise f (fuel + 1) a b hsign hth]; rfl
      · rw [bracketLoop_step_pos f (fuel + 1) a b hsign hth]
        refine ih (a / 2) (b * 2) (by positivity) ?_
        rw [pow_succ] at hsmall
        linarith
    · rw [bracketLoop_found f (fuel + 1) a b hsign]; rfl

/-- For an objective positive on positive inputs the sign test never fails,
so from positive endpoints the loop can only run out of fuel or raise. -/
lemma bracketLoop_posf (f : ℚ → ℚ) (hf : ∀ x, 0 < x → 0 < f x) :
    ∀ (fuel : ℕ) (a b : ℚ), 0 < a → 0 < b →
      bracketLoop f fuel a b = none
        ∨ ∃ lo hi, bracketLoop f fuel a b
            = some (Except.error (SolveError.bracketNotFound lo hi)) := by
  intro fuel
  induction fuel with
  | zero => intro a b _ _; left; rfl
  | succ fuel ih =>
    intro a b ha hb
    have hsign : f a * f b > 0 := mul_pos (hf a ha) (hf b hb)
    by_cases hth : |a / 2| < 1 / 100000000 ∨ |b * 2| > 100000000
    · right
      exact ⟨a / 2, b * 2, bracketLoop_raise f fuel a b hsign hth⟩
    · rw [bracketLoop_step_pos f fuel a b hsign hth]
      exact ih (a / 2) (b * 2) (by positivity) (by positivity)

/-! ### The closed form of the balance recurrence -/

/-- Unfolding of one year of the scalar loop. -/
lemma balanceLoop_succ_eq (E0 i r : ℚ) (k : ℕ) (b : ℚ) (y : ℕ) :
    balanceLoop E0 i r (k + 1) b y
      = balanceLoop E0 i r k
          (b + (if y = 1 then 0 else b * r) - E0 * (1 + i) ^ (y - 1)) (y + 1) := rfl

/-- Base case of the scalar loop. -/
lemma balanceLoop_zero_eq (E0 i r : ℚ) (b : ℚ) (y : ℕ) :
    balanceLoop E0 i r 0 b y = b := rfl

/-- Closed form of the loop from a year `y ≥ 2` on (growth applies in every
remaining year): the balance compounds at `(1+r)` while each year `y + j`
drains `E0 (1+i)^(y+j-1)` compounded forward by the remaining years. -/
lemma balanceLoop_closed (E0 i r : ℚ) :
    ∀ (k : ℕ) (b : ℚ) (y : ℕ), 2 ≤ y →
      balanceLoop E0 i r k b y
        = b * (1 + r) ^ k
          - ∑ j in Finset.range k, E0 * (1 + i) ^ (y - 1 + j) * (1 + r) ^ (k - 1 - j) := by
  intro k
  induction k with
  | zero => intro b y _; simp [balanceLoop_zero_eq]
  | succ k ih =>
    intro b y hy
    have hy1 : y ≠ 1 := by omega
    rw [balanceLoop_succ_eq, if_neg hy1, ih _ (y + 1) (by omega)]
    rw [Finset.sum_range_succ']
    have hexp : ∀ j, j ∈ Finset.range k →
        E0 * (1 + i) ^ (y + 1 - 1 + j) * (1 + r) ^ (k - 1 - j)
          = E0 * (1 + i) ^ (y - 1 + (j + 1)) * (1 + r) ^ (k + 1 - 1 - (j + 1)) := by
      intro j hj
      have h1 : y + 1 - 1 + j = y - 1 + (j + 1) := by omega
      have h2 : k - 1 - j = k + 1 - 1 - (j + 1) := by omega
      rw [h1, h2]
    rw [Finset.sum_congr rfl hexp]
    have h0 : (k + 1 - 1 - 0 : ℕ) = k := by omega
    rw [h0]
    have h3 : (y - 1 + 0 : ℕ) = y - 1 := by omega
    rw [h3]
    ring

/-- The objective is affine in the quantity: closed form over the whole
horizon, year 1 contributing no growth. -/
lemma calculate_closed (A : ℚ) (n : ℕ) (E0 i r V : ℚ) :
    calculate_balance_with_skip_growth A n E0 i r V
      = A * V * (1 + r) ^ (n - 1)
        - ∑ j in Finset.range n, E0 * (1 + i) ^ j * (1 + r) ^ (n - 1 - j) := by
  cases n with
  | zero => simp [calculate_balance_with_skip_growth, balanceLoop_zero_eq]
  | succ m =>
    rw [calculate_balance_with_skip_growth, balanceLoop_succ_eq, if_pos rfl,
      balanceLoop_closed E0 i r m _ 2 (by omega)]
    rw [Finset.sum_range_succ']
    have hexp : ∀ j, j ∈ Finset.range m →
        E0 * (1 + i) ^ (2 - 1 + j) * (1 + r) ^ (m - 1 - j)
          = E0 * (1 + i) ^ (j + 1) * (1 + r) ^ (m + 1 - 1 - (j + 1)) := by
      intro j hj
      have h1 : (2 - 1 + j : ℕ) = j + 1 := by omega
      have h2 : (m - 1 - j : ℕ) = m + 1 - 1 - (j + 1) := by omega
      rw [h1, h2]
    rw [Finset.sum_congr rfl hexp]
    have h0 : (m + 1 - 1 - 0 : ℕ) = m := by omega
    have h1 : (m + 1 - 1 : ℕ) = m := by omega
    rw [h0, h1]
    ring

/-! ### Helper lemmas about the trace and table loops -/

/-- Unfolding of one year of the trace loop. -/
lemma traceLoop_succ_eq (E0 i r : ℚ) (k : ℕ) (b : ℚ) (y : ℕ) :
    traceLoop E0 i r (k + 1) b y
      = { yearIndex := y, startingBalance := b,
          appreciation := if y = 1 then 0 else b * r,
          subtotal := b + (if y = 1 then 0 else b * r),
          livingExpenses := E0 * (1 + i) ^ (y - 1),
          endingBalance := b + (if y = 1 then 0 else b * r) - E0 * (1 + i) ^ (y - 1) }
        :: traceLoop E0 i r k
            (b + (if y = 1 then 0 else b * r) - E0 * (1 + i) ^ (y - 1)) (y + 1) := rfl

/-- Shape of each record of the trace: the record at index `j` covers year
`y + j` and its fields satisfy the recurrence of src/app.py lines 163-180. -/
lemma traceLoop_get (E0 i r : ℚ) :
    ∀ (k : ℕ) (b : ℚ) (y j : ℕ), j < k →
      ∃ rec, (traceLoop E0 i r k b y).get? j = some rec
        ∧ rec.yearIndex = y + j
        ∧ rec.livingExpenses = E0 * (1 + i) ^ (y + j - 1)
        ∧ rec.appreciation = (if y + j = 1 then 0 else rec.startingBalance * r)
        ∧ rec.subtotal = rec.startingBalance + rec.appreciation
        ∧ rec.endingBalance = rec.subtotal - rec.livingExpenses := by
  intro k
  induction k with
  | zero => intro b y j hj; omega
  | succ k ih =>
    intro b y j hj
    cases j with
    | zero =>
      rw [traceLoop_succ_eq]
      refine ⟨_, List.get?_cons_zero, ?_, ?_, ?_, ?_, ?_⟩ <;> simp
    | succ j =>
      rw [traceLoop_succ_eq]
      obtain ⟨rec, hget, hyear, hexp, happ, hsub, hend⟩ :=
        ih (b + (if y = 1 then 0 else b * r) - E0 * (1 + i) ^ (y - 1)) (y + 1) j
          (by omega)
      refine ⟨rec, ?_, ?_, ?_, ?_, hsub, hend⟩
      · rw [List.get?_cons_succ]; exact hget
      · rw [hyear]; omega
      · rw [hexp]
        have hy : y + 1 + j - 1 = y + (j + 1) - 1 := by omega
        rw [hy]
      · rw [happ]
        simp only [show (y + 1 + j : ℕ) = y + (j + 1) from by omega]

/-- Consecutive trace records chain: each year starts on the previous year's
ending balance. -/
lemma traceLoop_chain (E0 i r : ℚ) :
    ∀ (k : ℕ) (b : ℚ) (y j : ℕ), j + 1 < k →
      ∃ r1 r2, (traceLoop E0 i r k b y).get? j = some r1
        ∧ (traceLoop E0 i r k b y).get? (j + 1) = some r2
        ∧ r2.startingBalance = r1.endingBalance := by
  intro k
  induction k with
  | zero => intro b y j hj; omega
  | succ k ih =>
    intro b y j hj
    cases j with
    | zero =>
      cases k with
      | zero => omega
      | succ k => exact ⟨_, _, rfl, rfl, rfl⟩
    | succ j =>
      rw [traceLoop_succ_eq]
      obtain ⟨r1, r2, h1, h2, hchain⟩ :=
        ih (b + (if y = 1 then 0 else b * r) - E0 * (1 + i) ^ (y - 1)) (y + 1) j
          (by omega)
      exact ⟨r1, r2, by rw [List.get?_cons_succ]; exact h1,
        by rw [List.get?_cons_succ]; exact h2, hchain⟩

/-- The last record's ending balance is exactly the scalar loop's result. -/
lemma traceLoop_getLast (E0 i r : ℚ) :
    ∀ (k : ℕ) (b : ℚ) (y : ℕ), 1 ≤ k →
      ∃ rec, (traceLoop E0 i r k b y).getLast? = some rec
        ∧ rec.endingBalance = balanceLoop E0 i r k b y := by
  intro k
  induction k with
  | zero => intro b y h; omega
  | succ k ih =>
    intro b y _
    cases k with
    | zero => exact ⟨_, rfl, rfl⟩
    | succ k =>
      obtain ⟨rec, hlast, hend⟩ :=
        ih (b + (if y = 1 then 0 else b * r) - E0 * (1 + i) ^ (y - 1)) (y + 1)
          (by omega)
      refine ⟨rec, ?_, ?_⟩
      · rw [traceLoop_succ_eq, traceLoop_succ_eq, List.getLast?_cons_cons]
        rw [traceLoop_succ_eq] at hlast
        exact hlast
      · rw [hend]
        exact rfl

/-- The running totals of the table loop are the sums of the per-year
appreciation and expense values of the trace. -/
lemma tableLoop_totals (E0 i r : ℚ) (sy : ℤ) :
    ∀ (k : ℕ) (b : ℚ) (y : ℕ),
      (tableLoop E0 i r sy k b y).2.1
          = ((traceLoop E0 i r k b y).map YearRecord.livingExpenses).sum
        ∧ (tableLoop E0 i r sy k b y).2.2
          = ((traceLoop E0 i r k b y).map YearRecord.appreciation).sum := by
  intro k
  induction k with
  | zero => intro b y; exact ⟨rfl, rfl⟩
  | succ k ih =>
    intro b y
    obtain ⟨hexp, happ⟩ :=
      ih (b + (if y = 1 then 0 else b * r) - E0 * (1 + i) ^ (y - 1)) (y + 1)
    constructor
    · show E0 * (1 + i) ^ (y - 1)
          + (tableLoop E0 i r sy k
              (b + (if y = 1 then 0 else b * r) - E0 * (1 + i) ^ (y - 1)) (y + 1)).2.1
        = _
      rw [traceLoop_succ_eq, List.map_cons, List.sum_cons, hexp]
    · show (if y = 1 then 0 else b * r)
          + (tableLoop E0 i r sy k
              (b + (if y = 1 then 0 else b * r) - E0 * (1 + i) ^ (y - 1)) (y + 1)).2.2
        = _
      rw [traceLoop_succ_eq, List.map_cons, List.sum_cons, happ]

/-- The root the modelled Brent step returns on a sign-verified bracket is an
exact root of the objective. -/
lemma brentqModel_root (n : ℕ) (E0 i r V a b : ℚ)
    (h : ¬ balance_to_zero n E0 i r V a * balance_to_zero n E0 i r V b > 0) :
    balance_to_zero n E0 i r V (brentqModel n E0 i r V a b) = 0 := by
  have hf : ∀ x, balance_to_zero n E0 i r V x
      = x * (V * (1 + r) ^ (n - 1))
        - ∑ j in Finset.range n, E0 * (1 + i) ^ j * (1 + r) ^ (n - 1 - j) := by
    intro x
    rw [balance_to_zero, calculate_closed]
    ring
  by_cases hc : V * (1 + r) ^ (n - 1) = 0
  · have hd : (∑ j in Finset.range n, E0 * (1 + i) ^ j * (1 + r) ^ (n - 1 - j)) = 0 := by
      by_contra hd0
      apply h
      rw [hf a, hf b, hc]
      have h2 : (a * 0 - ∑ j in Finset.range n, E0 * (1 + i) ^ j * (1 + r) ^ (n - 1 - j))
            * (b * 0 - ∑ j in Finset.range n, E0 * (1 + i) ^ j * (1 + r) ^ (n - 1 - j))
          = (∑ j in Finset.range n, E0 * (1 + i) ^ j * (1 + r) ^ (n - 1 - j))
            * (∑ j in Finset.range n, E0 * (1 + i) ^ j * (1 + r) ^ (n - 1 - j)) := by
        ring
      rw [h2]
      exact mul_self_pos.mpr hd0
    rw [hf, hc, hd]
    ring
  · rw [hf, brentqModel]
    simp only [if_neg hc]
    rw [div_mul_cancel₀ _ hc]
    ring

/-! ### Claim theorems -/

/-- C10: affine closed form of the objective — for horizonYears `n ≥ 1`,
`finalBalance(A, params) = A · assetUnitValue · (1+appreciationRate)^(n-1)
− Σ_(y=1..n) annualExpenseBase · (1+inflationRate)^(y−1) ·
(1+appreciationRate)^(n−y)`; hence for `assetUnitValue > 0` and
`appreciationRate > −1` it has exactly one root. -/
theorem affine_closed_form (p : EconomicParameters) (hn : 1 ≤ p.horizonYears) :
    (∀ A : ℚ, finalBalance A p
        = A * p.assetUnitValue * (1 + p.appreciationRate) ^ (p.horizonYears - 1)
          - ∑ y in Finset.Icc 1 p.horizonYears,
              p.annualExpenseBase * (1 + p.inflationRate) ^ (y - 1)
                * (1 + p.appreciationRate) ^ (p.horizonYears - y))
    ∧ (0 < p.assetUnitValue → -1 < p.appreciationRate →
        ∃! A : ℚ, finalBalance A p = 0) := by
  have hsum : ∑ y in Finset.Icc 1 p.horizonYears,
      p.annualExpenseBase * (1 + p.inflationRate) ^ (y - 1)
        * (1 + p.appreciationRate) ^ (p.horizonYears - y)
      = ∑ j in Finset.range p.horizonYears,
          p.annualExpenseBase * (1 + p.inflationRate) ^ j
            * (1 + p.appreciationRate) ^ (p.horizonYears - 1 - j) := by
    rw [← Nat.Ico_succ_right, Finset.sum_Ico_eq_sum_range]
    simp only [Nat.succ_sub_one]
    refine Finset.sum_congr rfl ?_
    intro j hj
    have e1 : (1 + j - 1 : ℕ) = j := by omega
    have e2 : (p.horizonYears - (1 + j) : ℕ) = p.horizonYears - 1 - j := by omega
    rw [e1, e2]
  constructor
  · intro A
    unfold finalBalance
    rw [calculate_closed, hsum]
  · intro hV hr
    have hc : (0:ℚ) < p.assetUnitValue * (1 + p.appreciationRate) ^ (p.horizonYears - 1) :=
      mul_pos hV (pow_pos (by linarith) _)
    have hc' : p.assetUnitValue * (1 + p.appreciationRate) ^ (p.horizonYears - 1) ≠ 0 :=
      ne_of_gt hc
    refine ⟨(∑ j in Finset.range p.horizonYears,
        p.annualExpenseBase * (1 + p.inflationRate) ^ j
          * (1 + p.appreciationRate) ^ (p.horizonYears - 1 - j))
        / (p.assetUnitValue * (1 + p.appreciationRate) ^ (p.horizonYears - 1)), ?_, ?_⟩
    · show finalBalance _ p = 0
      unfold finalBalance
      rw [calculate_closed, mul_assoc, div_mul_cancel₀ _ hc']
      ring
    · intro y hy
      have hy' : finalBalance y p = 0 := hy
      unfold finalBalance at hy'
      rw [calculate_closed, mul_assoc] at hy'
      field_simp
      linarith

/-- C10 witness: the closed form and unique root at the concrete parameters
`horizonYears = 1, annualExpenseBase = 6, inflationRate = 0,
appreciationRate = 0, assetUnitValue = 1`. -/
theorem affine_closed_form_witness :
    (1 ≤ (⟨1, 6, 0, 0, 1⟩ : EconomicParameters).horizonYears)
    ∧ ((∀ A : ℚ, finalBalance A ⟨1, 6, 0, 0, 1⟩
          = A * (1 : ℚ) * (1 + 0) ^ (1 - 1)
            - ∑ y in Finset.Icc 1 1, (6 : ℚ) * (1 + 0) ^ (y - 1) * (1 + 0) ^ (1 - y))
        ∧ (0 < (1 : ℚ) → (-1 : ℚ) < 0 →
            ∃! A : ℚ, finalBalance A ⟨1, 6, 0, 0, 1⟩ = 0)) :=
  ⟨by norm_num, affine_closed_form ⟨1, 6, 0, 0, 1⟩ (by norm_num)⟩

/-- C4: for fixed parameters with positive asset unit value and
appreciation rate above −1, the objective is non-decreasing (and strictly
increasing) in the asset quantity over `A ≥ 0`. -/
theorem monotonicity (p : EconomicParameters) (hV : 0 < p.assetUnitValue)
    (hr : -1 < p.appreciationRate) (A1 A2 : ℚ) (h0 : 0 ≤ A1) (h12 : A1 ≤ A2) :
    finalBalance A1 p ≤ finalBalance A2 p
    ∧ (A1 < A2 → finalBalance A1 p < finalBalance A2 p) := by
  have hc : (0:ℚ) < p.assetUnitValue * (1 + p.appreciationRate) ^ (p.horizonYears - 1) :=
    mul_pos hV (pow_pos (by linarith) _)
  have hdiff : finalBalance A2 p - finalBalance A1 p
      = (A2 - A1)
        * (p.assetUnitValue * (1 + p.appreciationRate) ^ (p.horizonYears - 1)) := by
    unfold finalBalance
    rw [calculate_closed, calculate_closed]
    ring
  constructor
  · have hnn := mul_nonneg (sub_nonneg.mpr h12) hc.le
    linarith
  · intro hlt
    have hpos := mul_pos (sub_pos.mpr hlt) hc
    linarith

/-- C4 witness: monotonicity at the concrete parameters
`horizonYears = 2, annualExpenseBase = 10, rates 0, assetUnitValue = 1` and
quantities `A1 = 0 ≤ A2 = 1`. -/
theorem monotonicity_witness :
    (0 : ℚ) < (⟨2, 10, 0, 0, 1⟩ : EconomicParameters).assetUnitValue
    ∧ (-1 : ℚ) < (⟨2, 10, 0, 0, 1⟩ : EconomicParameters).appreciationRate
    ∧ (0 : ℚ) ≤ 0 ∧ (0 : ℚ) ≤ 1
    ∧ (finalBalance 0 ⟨2, 10, 0, 0, 1⟩ ≤ finalBalance 1 ⟨2, 10, 0, 0, 1⟩
        ∧ ((0 : ℚ) < 1 → finalBalance 0 ⟨2, 10, 0, 0, 1⟩ < finalBalance 1 ⟨2, 10, 0, 0, 1⟩)) :=
  ⟨by norm_num, by norm_num, le_refl 0, by norm_num,
    monotonicity ⟨2, 10, 0, 0, 1⟩ (by norm_num) (by norm_num) 0 1 (le_refl 0) (by norm_num)⟩

/-- C2: for every quantity `A ≥ 0`, horizon `n ≥ 1` and year `y` in `1..n`,
the living expenses deducted in year `y` equal
`annualExpenseBase × (1 + inflationRate)^(y−1)`; in particular year-1
expenses equal the base exactly, with no inflation applied. -/
theorem expense_compounding (A : ℚ) (hA : 0 ≤ A) (p : EconomicParameters)
    (hn : 1 ≤ p.horizonYears) (y : ℕ) (hy1 : 1 ≤ y) (hyn : y ≤ p.horizonYears) :
    (∃ rec, (simulate A p).get? (y - 1) = some rec
      ∧ rec.livingExpenses = p.annualExpenseBase * (1 + p.inflationRate) ^ (y - 1))
    ∧ ∃ rec1, (simulate A p).get? 0 = some rec1
        ∧ rec1.livingExpenses = p.annualExpenseBase := by
  constructor
  · obtain ⟨rec, hget, _, hexp, _, _, _⟩ :=
      traceLoop_get p.annualExpenseBase p.inflationRate p.appreciationRate
        p.horizonYears (A * p.assetUnitValue) 1 (y - 1) (by omega)
    refine ⟨rec, hget, ?_⟩
    rw [hexp]
    have e1 : (1 + (y - 1) - 1 : ℕ) = y - 1 := by omega
    rw [e1]
  · obtain ⟨rec, hget, _, hexp, _, _, _⟩ :=
      traceLoop_get p.annualExpenseBase p.inflationRate p.appreciationRate
        p.horizonYears (A * p.assetUnitValue) 1 0 (by omega)
    refine ⟨rec, hget, ?_⟩
    rw [hexp]
    norm_num

/-- C2 witness: year-2 expenses at
`A = 2, horizonYears = 3, annualExpenseBase = 7, inflationRate = 1/10,
appreciationRate = 1/5, assetUnitValue = 4`. -/
theorem expense_compounding_witness :
    (0 : ℚ) ≤ 2 ∧ 1 ≤ (⟨3, 7, 1/10, 1/5, 4⟩ : EconomicParameters).horizonYears
    ∧ (1 : ℕ) ≤ 2 ∧ (2 : ℕ) ≤ (⟨3, 7, 1/10, 1/5, 4⟩ : EconomicParameters).horizonYears
    ∧ ((∃ rec, (simulate 2 ⟨3, 7, 1/10, 1/5, 4⟩).get? (2 - 1) = some rec
          ∧ rec.livingExpenses = (7 : ℚ) * (1 + 1/10) ^ (2 - 1))
        ∧ ∃ rec1, (simulate 2 ⟨3, 7, 1/10, 1/5, 4⟩).get? 0 = some rec1
            ∧ rec1.livingExpenses = (7 : ℚ)) :=
  ⟨by norm_num, by norm_num, by norm_num, by norm_num,
    expense_compounding 2 (by norm_num) ⟨3, 7, 1/10, 1/5, 4⟩ (by norm_num) 2
      (by norm_num) (by norm_num)⟩

/-- C3: for every quantity and horizon `n ≥ 2`, the year-1 appreciation in
the trace is exactly 0, every year `y ≥ 2` has appreciation
`startingBalance(y) × appreciationRate`, and consequently year-2's
appreciation equals year-1's ending balance times the appreciation rate. -/
theorem year1_growth_skip (A : ℚ) (p : EconomicParameters)
    (hn : 2 ≤ p.horizonYears) :
    (∃ rec1, (simulate A p).get? 0 = some rec1 ∧ rec1.appreciation = 0)
    ∧ (∀ y : ℕ, 2 ≤ y → y ≤ p.horizonYears →
        ∃ rec, (simulate A p).get? (y - 1) = some rec
          ∧ rec.appreciation = rec.startingBalance * p.appreciationRate)
    ∧ ∃ rec1 rec2, (simulate A p).get? 0 = some rec1
        ∧ (simulate A p).get? 1 = some rec2
        ∧ rec2.appreciation = rec1.endingBalance * p.appreciationRate := by
  refine ⟨?_, ?_, ?_⟩
  · obtain ⟨rec, hget, _, _, happ, _, _⟩ :=
      traceLoop_get p.annualExpenseBase p.inflationRate p.appreciationRate
        p.horizonYears (A * p.assetUnitValue) 1 0 (by omega)
    refine ⟨rec, hget, ?_⟩
    rw [happ, if_pos (by norm_num)]
  · intro y h2 hyn
    obtain ⟨rec, hget, _, _, happ, _, _⟩ :=
      traceLoop_get p.annualExpenseBase p.inflationRate p.appreciationRate
        p.horizonYears (A * p.assetUnitValue) 1 (y - 1) (by omega)
    refine ⟨rec, hget, ?_⟩
    rw [happ, if_neg (by omega)]
  · obtain ⟨r1, r2, hg1, hg2, hchain⟩ :=
      traceLoop_chain p.annualExpenseBase p.inflationRate p.appreciationRate
        p.horizonYears (A * p.assetUnitValue) 1 0 (by omega)
    obtain ⟨rec, hget, _, _, happ, _, _⟩ :=
      traceLoop_get p.annualExpenseBase p.inflationRate p.appreciationRate
        p.horizonYears (A * p.assetUnitValue) 1 1 (by omega)
    have hr2 : rec = r2 := Option.some.inj (hget.symm.trans hg2)
    refine ⟨r1, r2, hg1, hg2, ?_⟩
    rw [← hr2, happ, if_neg (by omega), hr2, hchain]

/-- C3 witness: year-1 growth skip at
`A = 1, horizonYears = 2, annualExpenseBase = 10, inflationRate = 0,
appreciationRate = 1/2, assetUnitValue = 3`. -/
theorem year1_growth_skip_witness :
    2 ≤ (⟨2, 10, 0, 1/2, 3⟩ : EconomicParameters).horizonYears
    ∧ ((∃ rec1, (simulate 1 ⟨2, 10, 0, 1/2, 3⟩).get? 0 = some rec1
          ∧ rec1.appreciation = 0)
        ∧ (∀ y : ℕ, 2 ≤ y → y ≤ (⟨2, 10, 0, 1/2, 3⟩ : EconomicParameters).horizonYears →
            ∃ rec, (simulate 1 ⟨2, 10, 0, 1/2, 3⟩).get? (y - 1) = some rec
              ∧ rec.appreciation = rec.startingBalance * (1/2 : ℚ))
        ∧ ∃ rec1 rec2, (simulate 1 ⟨2, 10, 0, 1/2, 3⟩).get? 0 = some rec1
            ∧ (simulate 1 ⟨2, 10, 0, 1/2, 3⟩).get? 1 = some rec2
            ∧ rec2.appreciation = rec1.endingBalance * (1/2 : ℚ)) :=
  ⟨by norm_num, year1_growth_skip 1 ⟨2, 10, 0, 1/2, 3⟩ (by norm_num)⟩

/-- C6: the scalar objective used inside the solver and the year-by-year
table loop compute the same recurrence — the final year's ending balance of
the trace equals `calculate_balance_with_skip_growth(A, n, E0, i, r, V)`
exactly. -/
theorem scalar_trace_refinement (A : ℚ) (p : EconomicParameters)
    (hn : 1 ≤ p.horizonYears) :
    ∃ rec, (simulate A p).getLast? = some rec
      ∧ rec.endingBalance = finalBalance A p := by
  obtain ⟨rec, hlast, hend⟩ :=
    traceLoop_getLast p.annualExpenseBase p.inflationRate p.appreciationRate
      p.horizonYears (A * p.assetUnitValue) 1 hn
  exact ⟨rec, hlast, hend⟩

/-- C6 witness: trace/scalar agreement at
`A = 1, horizonYears = 1, annualExpenseBase = 5, rates 0,
assetUnitValue = 2`. -/
theorem scalar_trace_refinement_witness :
    1 ≤ (⟨1, 5, 0, 0, 2⟩ : EconomicParameters).horizonYears
    ∧ ∃ rec, (simulate 1 ⟨1, 5, 0, 0, 2⟩).getLast? = some rec
        ∧ rec.endingBalance = finalBalance 1 ⟨1, 5, 0, 0, 2⟩ :=
  ⟨by norm_num, scalar_trace_refinement 1 ⟨1, 5, 0, 0, 2⟩ (by norm_num)⟩

/-- At `horizonYears = 1, annualExpenseBase = 50, rates 0, assetUnitValue = 1`
the very first sign test already brackets the root, so the loop returns the
initial bracket `(0.01, 100)`. -/
lemma bracket_p0 : bracketLoop (balance_to_zero 1 50 0 0 1) 21 (1 / 100) 100
    = some (Except.ok (1 / 100, 100)) := by
  have hf : ∀ x : ℚ, balance_to_zero 1 50 0 0 1 x = x - 50 := by
    intro x
    rw [balance_to_zero, calculate_closed]
    norm_num [Finset.sum_range_one]
  rw [bracketLoop_found _ _ _ _ (by rw [hf, hf]; norm_num)]

/-- The solver at the same concrete parameters returns exactly 50 units. -/
lemma solve_p0 : solve ⟨1, 50, 0, 0, 1⟩ = some (Except.ok 50) := by
  have hstep : find_required_assets_with_skip_growth 1 50 0 0 1
      = some (Except.ok (brentqModel 1 50 0 0 1 (1 / 100) 100)) := by
    unfold find_required_assets_with_skip_growth
    rw [bracket_p0]
  have hbq : brentqModel 1 50 0 0 1 (1 / 100) 100 = 50 := by
    unfold brentqModel
    norm_num [Finset.sum_range_one]
  show find_required_assets_with_skip_growth 1 50 0 0 1 = some (Except.ok 50)
  rw [hstep, hbq]

/-- C1: zero-crossing — whenever solve returns normally with quantity `A`,
re-evaluating the objective at `A` gives final balance exactly 0 (hence
within any numeric tolerance of zero).  The external Brent root finder is
modelled from the spec as returning the exact root of the affine
objective. -/
theorem zero_crossing (p : EconomicParameters) (A : ℚ)
    (h : solve p = some (Except.ok A)) : finalBalance A p = 0 := by
  have h' : find_required_assets_with_skip_growth p.horizonYears
      p.annualExpenseBase p.inflationRate p.appreciationRate p.assetUnitValue
      = some (Except.ok A) := h
  unfold find_required_assets_with_skip_growth at h'
  cases hb : bracketLoop (balance_to_zero p.horizonYears p.annualExpenseBase
      p.inflationRate p.appreciationRate p.assetUnitValue) 21 (1 / 100) 100 with
  | none =>
    rw [hb] at h'
    exact Option.noConfusion h'
  | some res =>
    cases res with
    | error e =>
      rw [hb] at h'
      exact absurd (Option.some.inj h') (fun hh => Except.noConfusion hh)
    | ok ab =>
      obtain ⟨a, b⟩ := ab
      rw [hb] at h'
      have hA : brentqModel p.horizonYears p.annualExpenseBase p.inflationRate
          p.appreciationRate p.assetUnitValue a b = A :=
        Except.ok.inj (Option.some.inj h')
      have hsign := bracketLoop_ok_sign _ 21 (1 / 100) 100 a b hb
      have hroot := brentqModel_root p.horizonYears p.annualExpenseBase
        p.inflationRate p.appreciationRate p.assetUnitValue a b hsign
      rw [hA] at hroot
      exact hroot

/-- C1 witness: at `horizonYears = 1, annualExpenseBase = 50, rates 0,
assetUnitValue = 1`, solve returns 50 and the objective there is 0. -/
theorem zero_crossing_witness :
    solve ⟨1, 50, 0, 0, 1⟩ = some (Except.ok 50)
    ∧ finalBalance 50 ⟨1, 50, 0, 0, 1⟩ = 0 :=
  ⟨solve_p0, zero_crossing ⟨1, 50, 0, 0, 1⟩ 50 solve_p0⟩

/-- C5 (amended): starting from the bracket `(0.01, 100)` with halving and
doubling, the loop raises BracketNotFound exactly when the post-update check
finds the low endpoint below `1e-8` or the high endpoint above `1e8` — even
if the freshly recomputed endpoint values already exhibit a sign change —
and whenever the loop's sign test finds a sign-changing bracket, the root
finder receives exactly that verified bracket (never a same-sign pair). -/
theorem bracket_discovery_amended (f : ℚ → ℚ) (res : Except SolveError (ℚ × ℚ))
    (h : bracketLoop f 21 (1 / 100) 100 = some res) :
    (∀ a b : ℚ, res = Except.ok (a, b) → ¬ f a * f b > 0)
    ∧ ∀ lo hi : ℚ, res = Except.error (SolveError.bracketNotFound lo hi) →
        |lo| < 1 / 100000000 ∨ |hi| > 100000000 := by
  constructor
  · intro a b hres
    rw [hres] at h
    exact bracketLoop_ok_sign f 21 (1 / 100) 100 a b h
  · intro lo hi hres
    rw [hres] at h
    obtain ⟨a, b, he, hth⟩ := bracketLoop_err_shape f 21 (1 / 100) 100 _ h
    obtain ⟨h1, h2⟩ := SolveError.bracketNotFound.inj he
    rw [h1, h2]
    exact hth

/-- C5 witness: the amended statement at the concrete objective of
`bracket_p0`, whose run ends with the verified bracket `(0.01, 100)`. -/
theorem bracket_discovery_amended_witness :
    bracketLoop (balance_to_zero 1 50 0 0 1) 21 (1 / 100) 100
      = some (Except.ok (1 / 100, 100))
    ∧ ((∀ a b : ℚ,
          (Except.ok (1 / 100, 100) : Except SolveError (ℚ × ℚ)) = Except.ok (a, b)
          → ¬ balance_to_zero 1 50 0 0 1 a * balance_to_zero 1 50 0 0 1 b > 0)
        ∧ ∀ lo hi : ℚ,
          (Except.ok (1 / 100, 100) : Except SolveError (ℚ × ℚ))
              = Except.error (SolveError.bracketNotFound lo hi)
          → |lo| < 1 / 100000000 ∨ |hi| > 100000000) :=
  ⟨bracket_p0, bracket_discovery_amended (balance_to_zero 1 50 0 0 1) _ bracket_p0⟩

/-- C5 counterexample: with `horizonYears = 1, annualExpenseBase = 10^8,
rates 0, assetUnitValue = 1` (objective `A - 10^8`, root exactly `10^8`),
the 20th halving/doubling produces the bracket
`(0.01/2^20, 100·2^20) = (1/104857600, 104857600)` whose freshly recomputed
objective values DO change sign — yet the loop raises BracketNotFound,
because the threshold check fires before the sign test is repeated.  So the
raise is not restricted to the case where no sign change has been found. -/
theorem bracket_discovery_counterexample :
    bracketLoop (balance_to_zero 1 100000000 0 0 1) 21 (1 / 100) 100
        = some (Except.error (SolveError.bracketNotFound (1 / 104857600) 104857600))
      ∧ balance_to_zero 1 100000000 0 0 1 (1 / 104857600)
          * balance_to_zero 1 100000000 0 0 1 104857600 < 0 := by
  have hf : ∀ x : ℚ, balance_to_zero 1 100000000 0 0 1 x = x - 100000000 := by
    intro x
    rw [balance_to_zero, calculate_closed]
    norm_num [Finset.sum_range_one]
  constructor
  · iterate 19 rw [bracketLoop_step_pos _ _ _ _ (by rw [hf, hf]; norm_num)
      (by norm_num [abs_of_pos])]
    rw [bracketLoop_raise _ _ _ _ (by rw [hf, hf]; norm_num)
      (Or.inl (by norm_num [abs_of_pos]))]
    norm_num
  · rw [hf, hf]
    norm_num

/-- C7: totals consistency — on a successful run the synthetic total row
appended to the table carries the sum of all per-year appreciation amounts
and the sum of all per-year living expenses, and its Year, Starting Balance,
Subtotal and Ending Balance cells are the not-applicable marker. -/
theorem totals_consistency (p : EconomicParameters) (A : ℚ) (start_year : ℤ)
    (h : solve p = some (Except.ok A)) :
    ∃ rows totalRow, update_dashboard_table A p start_year = rows ++ [totalRow]
      ∧ totalRow.appreciationValue
          = some (((simulate A p).map YearRecord.appreciation).sum)
      ∧ totalRow.livingExpenses
          = some (((simulate A p).map YearRecord.livingExpenses).sum)
      ∧ totalRow.year = none ∧ totalRow.startingBalance = none
      ∧ totalRow.subtotal = none ∧ totalRow.endingBalance = none := by
  obtain ⟨hexp, happ⟩ :=
    tableLoop_totals p.annualExpenseBase p.inflationRate p.appreciationRate
      start_year p.horizonYears (A * p.assetUnitValue) 1
  refine ⟨(tableLoop p.annualExpenseBase p.inflationRate p.appreciationRate
      start_year p.horizonYears (A * p.assetUnitValue) 1).1,
    totalsRow
      (tableLoop p.annualExpenseBase p.inflationRate p.appreciationRate
        start_year p.horizonYears (A * p.assetUnitValue) 1).2.2
      (tableLoop p.annualExpenseBase p.inflationRate p.appreciationRate
        start_year p.horizonYears (A * p.assetUnitValue) 1).2.1,
    rfl, ?_, ?_, rfl, rfl, rfl, rfl⟩
  · exact congrArg some happ
  · exact congrArg some hexp

/-- C7 witness: the totals row at the successful run of `solve_p0`
(`A = 50`, start year 2032). -/
theorem totals_consistency_witness :
    solve ⟨1, 50, 0, 0, 1⟩ = some (Except.ok 50)
    ∧ ∃ rows totalRow,
        update_dashboard_table 50 ⟨1, 50, 0, 0, 1⟩ 2032 = rows ++ [totalRow]
        ∧ totalRow.appreciationValue
            = some (((simulate 50 ⟨1, 50, 0, 0, 1⟩).map YearRecord.appreciation).sum)
        ∧ totalRow.livingExpenses
            = some (((simulate 50 ⟨1, 50, 0, 0, 1⟩).map YearRecord.livingExpenses).sum)
        ∧ totalRow.year = none ∧ totalRow.startingBalance = none
        ∧ totalRow.subtotal = none ∧ totalRow.endingBalance = none :=
  ⟨solve_p0, totals_consistency ⟨1, 50, 0, 0, 1⟩ 50 2032 solve_p0⟩

/-- With a zero horizon the objective is `A * V`, positive for positive
quantities and unit values, so the bracket expansion never finds a sign
change and ends in BracketNotFound — no validation intercepts the degenerate
horizon. -/
lemma find_required_horizon0 (E0 i r V : ℚ) (hV : 0 < V) :
    ∃ lo hi, find_required_assets_with_skip_growth 0 E0 i r V
      = some (Except.error (SolveError.bracketNotFound lo hi)) := by
  have hf : ∀ x : ℚ, 0 < x → 0 < balance_to_zero 0 E0 i r V x := by
    intro x hx
    have hx0 : balance_to_zero 0 E0 i r V x = x * V := rfl
    rw [hx0]
    exact mul_pos hx hV
  have h21 := bracketLoop_posf (balance_to_zero 0 E0 i r V) hf 21 (1 / 100) 100
    (by norm_num) (by norm_num)
  rcases h21 with hnone | ⟨lo, hi, herr⟩
  · have hsome := bracketLoop_isSome (balance_to_zero 0 E0 i r V) 20 (1 / 100) 100
      (by norm_num) (by norm_num)
    have hsome' : (bracketLoop (balance_to_zero 0 E0 i r V) 21 (1 / 100) 100).isSome :=
      hsome
    rw [hnone] at hsome'
    simp at hsome'
  · refine ⟨lo, hi, ?_⟩
    unfold find_required_assets_with_skip_growth
    rw [herr]

/-- C8 (amended): the code performs no parameter validation at all — with a
non-positive horizon the simulation and bracket search still run, and (for a
positive unit value) end in BracketNotFound; an InvalidParameters rejection
never happens. -/
theorem no_parameter_validation (E0 i r V : ℚ) (hV : 0 < V) :
    ∃ lo hi, solve ⟨0, E0, i, r, V⟩
      = some (Except.error (SolveError.bracketNotFound lo hi)) := by
  obtain ⟨lo, hi, h⟩ := find_required_horizon0 E0 i r V hV
  exact ⟨lo, hi, h⟩

/-- C8 witness: the amended statement at
`horizonYears = 0, annualExpenseBase = 1, rates 0, assetUnitValue = 1`. -/
theorem no_parameter_validation_witness :
    (0 : ℚ) < 1 ∧ ∃ lo hi, solve ⟨0, 1, 0, 0, 1⟩
      = some (Except.error (SolveError.bracketNotFound lo hi)) :=
  ⟨by norm_num, no_parameter_validation 1 0 0 1 (by norm_num)⟩

/-- C8 counterexample: at the non-positive horizon `horizonYears = 0` (with
`annualExpenseBase = 1, rates 0, assetUnitValue = 1`) the core runs the
bracket search and fails with BracketNotFound, which is a different
constructor from InvalidParameters — it does not reject the parameters with
an InvalidParameters failure before simulating. -/
theorem invalid_parameters_counterexample :
    (∃ lo hi, solve ⟨0, 1, 0, 0, 1⟩
        = some (Except.error (SolveError.bracketNotFound lo hi)))
    ∧ ∀ lo hi : ℚ, SolveError.bracketNotFound lo hi ≠ SolveError.invalidParameters := by
  constructor
  · obtain ⟨lo, hi, h⟩ := find_required_horizon0 1 0 0 1 (by norm_num)
    exact ⟨lo, hi, h⟩
  · intro lo hi hcontra
    exact SolveError.noConfusion hcontra

/-- C9: bounded termination — for every parameter record, fuel 21 (at most
20 bracket-expansion iterations) always yields a result, because after 20
halvings the low endpoint `0.01/2^20` is below `1e-8` and after 20 doublings
the high endpoint `100·2^20` is above `1e8`, so either a sign-changing
bracket is found earlier or the BracketNotFound abort fires. -/
theorem solve_terminates (p : EconomicParameters) :
    (∃ res, solve p = some res)
    ∧ (1 : ℚ) / 100 / 2 ^ 20 < 1 / 100000000
    ∧ (100 : ℚ) * 2 ^ 20 > 100000000 := by
  refine ⟨?_, by norm_num, by norm_num⟩
  have hsome := bracketLoop_isSome (balance_to_zero p.horizonYears
      p.annualExpenseBase p.inflationRate p.appreciationRate p.assetUnitValue)
      20 (1 / 100) 100 (by norm_num) (by norm_num)
  have hsome' : (bracketLoop (balance_to_zero p.horizonYears p.annualExpenseBase
      p.inflationRate p.appreciationRate p.assetUnitValue) 21 (1 / 100) 100).isSome :=
    hsome
  rw [Option.isSome_iff_exists] at hsome'
  obtain ⟨res, hres⟩ := hsome'
  show ∃ r', find_required_assets_with_skip_growth p.horizonYears
      p.annualExpenseBase p.inflationRate p.appreciationRate p.assetUnitValue
      = some r'
  unfold find_required_assets_with_skip_growth
  rw [hres]
  rcases res with e | ⟨a, b⟩
  · exact ⟨_, rfl⟩
  · exact ⟨_, rfl⟩
